import Mathlib

/-!
Shallow embedding of the `nodes-common` crate (`src/nodes-common/src/lib.rs`
and `src/nodes-common/src/api.rs`): the `StartedServices` readiness registry,
the `spawn_shutdown_task` shutdown coordinator, and the health/version HTTP
surface built on them.

The shared-ownership cells (`Arc<AtomicBool>`, `Arc<Mutex<Vec<...>>>`) are
modelled by a small heap: pointers are indices into lists of cell contents,
and cloning a handle copies the pointer, so clones alias the same cell.
-/

namespace NodesCommon

/-- The heap of shared cells.  `flags` models the `AtomicBool` cells (one per
registered service, indexed by pointer); `vecs` models the
`Mutex<Vec<Arc<AtomicBool>>>` cells, each holding a list of flag pointers. -/
structure Heap where
  flags : List Bool
  vecs : List (List Nat)
deriving DecidableEq, Repr

/-- Current value of the atomic flag cell at pointer `f`
(`AtomicBool::load(Ordering::Relaxed)`). -/
def Heap.flagVal (h : Heap) (f : Nat) : Bool :=
  h.flags.getD f false

/-- Contents of the registry vector cell at pointer `v`. -/
def Heap.vecAt (h : Heap) (v : Nat) : List Nat :=
  h.vecs.getD v []

/-- `StartedServices`: its single field `external_service` is an
`Arc<Mutex<Vec<Arc<AtomicBool>>>>`, modelled as a pointer into `Heap.vecs`. -/
structure StartedServices where
  external_service : Nat
deriving DecidableEq, Repr

/-- The derived `Clone` clones the inner `Arc`, producing a handle to the very
same vector cell. -/
def StartedServices.clone (s : StartedServices) : StartedServices :=
  s

/-- `StartedServices::new` / `Default::default`: allocates a fresh empty
vector cell and hands back a handle to it. -/
def StartedServices.new (h : Heap) : Heap × StartedServices :=
  ({ h with vecs := h.vecs ++ [[]] }, ⟨h.vecs.length⟩)

/-- `StartedServices::new_service`: allocates a fresh `AtomicBool` initialized
to `false` (`AtomicBool::default`), pushes a shared handle to it onto the
locked vector, and returns the flag pointer to the caller. -/
def StartedServices.new_service (h : Heap) (s : StartedServices) : Heap × Nat :=
  ({ flags := h.flags ++ [false],
     vecs := h.vecs.set s.external_service
       (h.vecAt s.external_service ++ [h.flags.length]) },
   h.flags.length)

/-- A sub-service marking its readiness flag: `flag.store(true,
Ordering::Relaxed)` on the `AtomicBool` returned by `new_service`. -/
def markReady (h : Heap) (f : Nat) : Heap :=
  { h with flags := h.flags.set f true }

/-- `StartedServices::all_started`: locks the vector and checks that every
registered flag currently reads `true`. -/
def StartedServices.all_started (h : Heap) (s : StartedServices) : Bool :=
  (h.vecAt s.external_service).all fun f => h.flagVal f

/-- The registry-mutating operations available after creation:
`new_service` on some handle, or a `store(true)` on some flag pointer. -/
inductive RegOp where
  | register (s : StartedServices)
  | storeTrue (f : Nat)
deriving DecidableEq, Repr

/-- Effect of one registry operation on the heap. -/
def applyRegOp (h : Heap) : RegOp → Heap
  | .register s => (StartedServices.new_service h s).1
  | .storeTrue f => markReady h f

/-- `Mutex::lock`: yields the guarded value, or the poisoned-lock error
(`none`) when the mutex is poisoned. -/
def lockVec (poisoned : Bool) (v : List Nat) : Option (List Nat) :=
  if poisoned then none else some v

/-- `new_service` with the lock acquisition made explicit: the
`.expect("Not poisoned")` call panics (modelled as `none`) exactly on the
poisoned-lock error; there is no other failure path. -/
def StartedServices.new_serviceChecked (poisoned : Bool) (h : Heap)
    (s : StartedServices) : Option (Heap × Nat) :=
  match lockVec poisoned (h.vecAt s.external_service) with
  | none => none
  | some _ => some (StartedServices.new_service h s)

/-- `all_started` with the lock acquisition made explicit, panicking
(`none`) exactly on the poisoned-lock error. -/
def StartedServices.all_startedChecked (poisoned : Bool) (h : Heap)
    (s : StartedServices) : Option Bool :=
  match lockVec poisoned (h.vecAt s.external_service) with
  | none => none
  | some v => some (v.all fun f => h.flagVal f)

/-- An HTTP response: status code, body, and headers. -/
structure Response where
  status : Nat
  body : String
  headers : List (String × String)
deriving DecidableEq, Repr

/-- The `health` handler of `api.rs`: `200 OK` with body `healthy` when
`all_started` holds, else `503 Service Unavailable` with body `starting`.
The handler itself sets no headers. -/
def health (h : Heap) (s : StartedServices) : Response :=
  if StartedServices.all_started h s then ⟨200, "healthy", []⟩
  else ⟨503, "starting", []⟩

/-- The `version` handler of `api.rs`: `200 OK` with the supplied version
string.  The handler itself sets no headers. -/
def version (versionStr : String) : Response :=
  ⟨200, versionStr, []⟩

/-- `tower_http::set_header::SetResponseHeaderLayer::overriding`: inserts the
given header into the response, overriding any previous value of it. -/
def setResponseHeaderOverriding (name value : String) (r : Response) : Response :=
  { r with headers := (name, value) :: r.headers.filter fun p => p.1 ≠ name }

/-- The two routes installed by `routes` in `api.rs`. -/
inductive RouteReq where
  | health
  | version
deriving DecidableEq, Repr

/-- The inner handler the router dispatches to, before the header layer. -/
def routeHandler (h : Heap) (s : StartedServices) (versionStr : String) :
    RouteReq → Response
  | .health => health h s
  | .version => version versionStr

/-- `routes` of `api.rs`: dispatch to the handler, then the
`SetResponseHeaderLayer` applies `Cache-Control: no-cache` to the response. -/
def routes (h : Heap) (s : StartedServices) (versionStr : String)
    (req : RouteReq) : Response :=
  setResponseHeaderOverriding ("cache-control") ("no-cache")
    (routeHandler h s versionStr req)

/-- State of the coordinator created by `spawn_shutdown_task`:
whether the `shutdown_signal` future has completed, whether the
`CancellationToken` is cancelled, the `is_graceful` flag, and whether the
spawned listener task has exited its `select!`. -/
structure ShutdownState where
  triggerResolved : Bool
  cancelled : Bool
  graceful : Bool
  listenerDone : Bool
deriving DecidableEq, Repr

/-- The state right after `spawn_shutdown_task` returns: token fresh,
`is_graceful` initialized to `false`, listener waiting. -/
def initShutdown : ShutdownState :=
  { triggerResolved := false, cancelled := false, graceful := false,
    listenerDone := false }

/-- Atomic events of the coordinator: the external trigger resolving, a
holder calling `cancel()` on the token, the listener's `select!` completing
through its `shutdown_signal` branch (which stores `true` into `is_graceful`
and then cancels the token), or through its `cancelled()` branch (which does
nothing).  A `select!` branch can only run while the listener is still
waiting and its future is ready; an un-enabled event leaves the state
unchanged. -/
inductive ShutdownEv where
  | resolveTrigger
  | manualCancel
  | listenerTriggerBranch
  | listenerCancelBranch
deriving DecidableEq, Repr

/-- One step of the shutdown coordinator. -/
def shutdownStep (s : ShutdownState) : ShutdownEv → ShutdownState
  | .resolveTrigger => { s with triggerResolved := true }
  | .manualCancel => { s with cancelled := true }
  | .listenerTriggerBranch =>
      if !s.listenerDone && s.triggerResolved then
        { s with graceful := true, cancelled := true, listenerDone := true }
      else s
  | .listenerCancelBranch =>
      if !s.listenerDone && s.cancelled then
        { s with listenerDone := true }
      else s

/-- Run the coordinator over a sequence of events. -/
def shutdownRun (s : ShutdownState) : List ShutdownEv → ShutdownState
  | [] => s
  | e :: es => shutdownRun (shutdownStep s e) es

/- ### Helper lemmas -/

theorem list_getD_set_lt {α : Type} (l : List α) (i : Nat) (a d : α)
    (hi : i < l.length) : (l.set i a).getD i d = a := by
  induction l generalizing i with
  | nil => simp at hi
  | cons x xs ih =>
    cases i with
    | zero => rfl
    | succ n =>
      simp only [List.set, List.getD, List.getElem?_cons_succ]
      exact ih n (by simpa using hi)

theorem list_getD_set_ne {α : Type} (l : List α) (i j : Nat) (a d : α)
    (hij : i ≠ j) : (l.set i a).getD j d = l.getD j d := by
  induction l generalizing i j with
  | nil => rfl
  | cons x xs ih =>
    cases i with
    | zero =>
      cases j with
      | zero => exact absurd rfl hij
      | succ m => rfl
    | succ n =>
      cases j with
      | zero => rfl
      | succ m =>
        simp only [List.set, List.getD, List.getElem?_cons_succ]
        exact ih n m fun hh => hij (by simp [hh])

theorem list_getD_append_lt {α : Type} (l l' : List α) (i : Nat) (d : α)
    (hi : i < l.length) : (l ++ l').getD i d = l.getD i d := by
  simp [List.getD, List.getElem?_append, hi]

theorem shutdownStep_graceful_mono (s : ShutdownState) (e : ShutdownEv)
    (hg : s.graceful = true) : (shutdownStep s e).graceful = true := by
  cases e <;> simp only [shutdownStep] <;> first
    | exact hg
    | (split <;> simp [hg])

theorem shutdownRun_graceful_mono (tr : List ShutdownEv) (s : ShutdownState)
    (hg : s.graceful = true) : (shutdownRun s tr).graceful = true := by
  induction tr generalizing s with
  | nil => exact hg
  | cons e es ih => exact ih _ (shutdownStep_graceful_mono s e hg)

theorem shutdownStep_cancelled_mono (s : ShutdownState) (e : ShutdownEv)
    (hc : s.cancelled = true) : (shutdownStep s e).cancelled = true := by
  cases e <;> simp only [shutdownStep] <;> first
    | exact hc
    | rfl
    | (split <;> simp [hc])

theorem shutdownRun_cancelled_mono (tr : List ShutdownEv) (s : ShutdownState)
    (hc : s.cancelled = true) : (shutdownRun s tr).cancelled = true := by
  induction tr generalizing s with
  | nil => exact hc
  | cons e es ih => exact ih _ (shutdownStep_cancelled_mono s e hc)

theorem shutdownRun_cancel_mem (tr : List ShutdownEv) (s : ShutdownState)
    (hm : ShutdownEv.manualCancel ∈ tr) :
    (shutdownRun s tr).cancelled = true := by
  induction tr generalizing s with
  | nil => simp at hm
  | cons e es ih =>
    by_cases he : e = ShutdownEv.manualCancel
    · subst he
      exact shutdownRun_cancelled_mono es _ rfl
    · have : ShutdownEv.manualCancel ∈ es := by
        cases List.mem_cons.mp hm with
        | inl h0 => exact absurd h0.symm he
        | inr h0 => exact h0
      exact ih _ this

theorem shutdownRun_no_trigger (tr : List ShutdownEv) (s : ShutdownState)
    (hno : ShutdownEv.resolveTrigger ∉ tr)
    (hres : s.triggerResolved = false) (hg : s.graceful = false) :
    (shutdownRun s tr).triggerResolved = false ∧
      (shutdownRun s tr).graceful = false := by
  induction tr generalizing s with
  | nil => exact ⟨hres, hg⟩
  | cons e es ih =>
    have hne : e ≠ ShutdownEv.resolveTrigger := fun he =>
      hno (by simp [he])
    have hnos : ShutdownEv.resolveTrigger ∉ es := fun hm =>
      hno (List.mem_cons_of_mem _ hm)
    apply ih _ hnos <;> cases e <;>
      simp only [shutdownStep] <;>
      first
        | exact absurd rfl hne
        | exact hres
        | exact hg
        | (split <;> simp_all)

/- ### Claim theorems -/

/-- Claim C1: `all_started` returns `true` iff every registered flag
currently reads `true`; over an empty registry the quantification is vacuous,
so it returns `true`. -/
theorem all_started_iff_all_flags (h : Heap) (s : StartedServices) :
    (StartedServices.all_started h s = true ↔
      ∀ f ∈ h.vecAt s.external_service, h.flagVal f = true) ∧
    (h.vecAt s.external_service = [] →
      StartedServices.all_started h s = true) := by
  constructor
  · simp [StartedServices.all_started, List.all_eq_true]
  · intro he
    simp [StartedServices.all_started, he]

/-- Witness for C1 at a concrete empty registry. -/
theorem all_started_iff_all_flags_witness :
    Heap.vecAt ⟨[], [[]]⟩ 0 = [] ∧
      StartedServices.all_started ⟨[], [[]]⟩ ⟨0⟩ = true :=
  ⟨rfl, (all_started_iff_all_flags ⟨[], [[]]⟩ ⟨0⟩).2 rfl⟩

/-- Claim C5: storing `true` into a readiness flag twice produces the same
heap, and hence the same `all_started` observation, as storing it once. -/
theorem mark_ready_idempotent (h : Heap) (f : Nat) (s : StartedServices) :
    markReady (markReady h f) f = markReady h f ∧
    StartedServices.all_started (markReady (markReady h f) f) s =
      StartedServices.all_started (markReady h f) s := by
  have h1 : markReady (markReady h f) f = markReady h f := by
    simp [markReady, List.set_set]
  exact ⟨h1, by rw [h1]⟩

/-- Claim C6: every registry operation only appends to the flag collection
(each vector cell and the flag store extend by a possibly-empty tail, so
nothing is ever removed), and a flag that reads `true` keeps reading `true`
after any operation: flags only ever go `false` to `true`. -/
theorem registry_append_only_and_monotone (h : Heap) (op : RegOp) (i f : Nat)
    (hf : h.flagVal f = true) :
    (∃ tail, (applyRegOp h op).vecAt i = h.vecAt i ++ tail) ∧
    h.flags.length ≤ (applyRegOp h op).flags.length ∧
    (applyRegOp h op).flagVal f = true := by
  have hflt : f < h.flags.length := by
    by_contra hge
    have : h.flags.getD f false = false :=
      List.getD_eq_default _ _ (Nat.le_of_not_lt hge)
    rw [Heap.flagVal, this] at hf
    exact Bool.false_ne_true hf
  cases op with
  | register s =>
    refine ⟨?_, ?_, ?_⟩
    · by_cases hv : s.external_service < h.vecs.length
      · by_cases hi : s.external_service = i
        · subst hi
          refine ⟨[h.flags.length], ?_⟩
          simp only [applyRegOp, StartedServices.new_service, Heap.vecAt]
          exact list_getD_set_lt _ _ _ _ hv
        · refine ⟨[], ?_⟩
          simp only [applyRegOp, StartedServices.new_service, Heap.vecAt]
          rw [list_getD_set_ne _ _ _ _ _ hi, List.append_nil]
      · refine ⟨[], ?_⟩
        simp only [applyRegOp, StartedServices.new_service, Heap.vecAt]
        rw [List.set_eq_of_length_le (Nat.le_of_not_lt hv), List.append_nil]
    · simp only [applyRegOp, StartedServices.new_service, List.length_append]
      omega
    · simp only [applyRegOp, StartedServices.new_service, Heap.flagVal]
      rw [list_getD_append_lt _ _ _ _ hflt]
      exact hf
  | storeTrue g =>
    refine ⟨⟨[], by simp [applyRegOp, markReady, Heap.vecAt]⟩, ?_, ?_⟩
    · simp [applyRegOp, markReady]
    · by_cases hg : g = f
      · subst hg
        simp only [applyRegOp, markReady, Heap.flagVal]
        exact list_getD_set_lt _ _ _ _ hflt
      · simp only [applyRegOp, markReady, Heap.flagVal]
        rw [list_getD_set_ne _ _ _ _ _ hg]
        exact hf

/-- Witness for C6: a concrete heap with one registered, ready flag. -/
theorem registry_append_only_and_monotone_witness :
    (∃ tail, (applyRegOp ⟨[true], [[0]]⟩ (RegOp.storeTrue 0)).vecAt 0 =
      Heap.vecAt ⟨[true], [[0]]⟩ 0 ++ tail) ∧
    (Heap.flags ⟨[true], [[0]]⟩).length ≤
      ((applyRegOp ⟨[true], [[0]]⟩ (RegOp.storeTrue 0)).flags).length ∧
    (applyRegOp ⟨[true], [[0]]⟩ (RegOp.storeTrue 0)).flagVal 0 = true :=
  registry_append_only_and_monotone ⟨[true], [[0]]⟩ (RegOp.storeTrue 0) 0 0 rfl

/-- Claim C7: the health endpoint decides via `all_started`: it answers
`200 OK` with body `healthy` exactly when `all_started` is `true`, and
`503 Service Unavailable` with body `starting` exactly when it is `false`. -/
theorem health_decides_by_all_started (h : Heap) (s : StartedServices) :
    (health h s = ⟨200, "healthy", []⟩ ↔
      StartedServices.all_started h s = true) ∧
    (health h s = ⟨503, "starting", []⟩ ↔
      StartedServices.all_started h s = false) := by
  cases hs : StartedServices.all_started h s <;> simp [health, hs]

/-- Claim C8: every routed health/version response carries the
`cache-control: no-cache` header, and the header comes from the wrapping
`SetResponseHeaderLayer`: the inner handlers emit no cache-control header
themselves. -/
theorem cache_control_from_layer (h : Heap) (s : StartedServices)
    (v : String) (req : RouteReq) :
    ("cache-control", "no-cache") ∈ (routes h s v req).headers ∧
    ∀ p ∈ (routeHandler h s v req).headers, p.1 ≠ "cache-control" := by
  constructor
  · simp [routes, setResponseHeaderOverriding]
  · cases req <;> cases hs : StartedServices.all_started h s <;>
      simp [routeHandler, health, version, hs]

/-- Witness for C8 at a concrete state and request. -/
theorem cache_control_from_layer_witness :
    ("cache-control", "no-cache") ∈
      (routes ⟨[], [[]]⟩ ⟨0⟩ ("v1") RouteReq.version).headers :=
  (cache_control_from_layer ⟨[], [[]]⟩ ⟨0⟩ ("v1") RouteReq.version).1

/-- Claim C9: registry operations have exactly one failure mode: they panic
iff the registry lock is poisoned, and on an unpoisoned lock they always
succeed with the usual results. -/
theorem registry_ops_panic_iff_poisoned (p : Bool) (h : Heap)
    (s : StartedServices) :
    (StartedServices.new_serviceChecked p h s).isNone = p ∧
    (StartedServices.all_startedChecked p h s).isNone = p ∧
    (p = false →
      StartedServices.new_serviceChecked p h s =
        some (StartedServices.new_service h s) ∧
      StartedServices.all_startedChecked p h s =
        some (StartedServices.all_started h s)) := by
  cases p <;>
    simp [StartedServices.new_serviceChecked, StartedServices.all_startedChecked,
      lockVec, StartedServices.all_started]

/-- Witness for C9 in both the poisoned and the unpoisoned case. -/
theorem registry_ops_panic_iff_poisoned_witness :
    (StartedServices.new_serviceChecked true ⟨[], [[]]⟩ ⟨0⟩).isNone = true ∧
    StartedServices.all_startedChecked false ⟨[], [[]]⟩ ⟨0⟩ =
      some (StartedServices.all_started ⟨[], [[]]⟩ ⟨0⟩) :=
  ⟨(registry_ops_panic_iff_poisoned true ⟨[], [[]]⟩ ⟨0⟩).1,
   ((registry_ops_panic_iff_poisoned false ⟨[], [[]]⟩ ⟨0⟩).2.2 rfl).2⟩

/-- Claim C10: a clone aliases the same underlying vector cell: `all_started`
agrees on the original and the clone in every heap, and a flag registered
through either handle lands in the vector the other handle reads. -/
theorem clone_shares_flag_collection (h : Heap) (r : StartedServices)
    (hv : r.external_service < h.vecs.length) :
    (∀ h2 : Heap, StartedServices.all_started h2 (StartedServices.clone r) =
      StartedServices.all_started h2 r) ∧
    (StartedServices.new_service h (StartedServices.clone r)).2 ∈
      (StartedServices.new_service h (StartedServices.clone r)).1.vecAt
        r.external_service ∧
    (StartedServices.new_service h r).2 ∈
      (StartedServices.new_service h r).1.vecAt
        (StartedServices.clone r).external_service := by
  refine ⟨fun h2 => rfl, ?_, ?_⟩ <;>
  · simp only [StartedServices.clone, StartedServices.new_service, Heap.vecAt]
    rw [list_getD_set_lt _ _ _ _ hv]
    exact List.mem_append_right _ (List.mem_singleton.mpr rfl)

/-- Witness for C10 at a concrete one-registry heap. -/
theorem clone_shares_flag_collection_witness :
    (∀ h2 : Heap,
      StartedServices.all_started h2 (StartedServices.clone ⟨0⟩) =
        StartedServices.all_started h2 ⟨0⟩) ∧
    (StartedServices.new_service ⟨[], [[]]⟩ (StartedServices.clone ⟨0⟩)).2 ∈
      (StartedServices.new_service ⟨[], [[]]⟩
        (StartedServices.clone ⟨0⟩)).1.vecAt 0 ∧
    (StartedServices.new_service ⟨[], [[]]⟩ (⟨0⟩ : StartedServices)).2 ∈
      (StartedServices.new_service ⟨[], [[]]⟩ (⟨0⟩ : StartedServices)).1.vecAt
        (StartedServices.clone ⟨0⟩).external_service :=
  clone_shares_flag_collection ⟨[], [[]]⟩ ⟨0⟩ (by decide)

/-- Claim C2: once the trigger has resolved and no cancellation has occurred,
the listener cannot exit through its cancelled branch; its trigger branch
marks the graceful flag `true` and cancels the token, and the graceful flag
still reads `true` after any further events, in particular after cancellation
completes. -/
theorem trigger_before_cancel_graceful (s : ShutdownState)
    (tr : List ShutdownEv) (hres : s.triggerResolved = true)
    (hc : s.cancelled = false) (hd : s.listenerDone = false) :
    shutdownStep s ShutdownEv.listenerCancelBranch = s ∧
    (shutdownStep s ShutdownEv.listenerTriggerBranch).graceful = true ∧
    (shutdownStep s ShutdownEv.listenerTriggerBranch).cancelled = true ∧
    (shutdownRun (shutdownStep s ShutdownEv.listenerTriggerBranch) tr).graceful
      = true := by
  have hstep : (shutdownStep s ShutdownEv.listenerTriggerBranch).graceful = true
      ∧ (shutdownStep s ShutdownEv.listenerTriggerBranch).cancelled = true := by
    simp [shutdownStep, hres, hd]
  refine ⟨?_, hstep.1, hstep.2, shutdownRun_graceful_mono _ _ hstep.1⟩
  simp [shutdownStep, hc]

/-- Witness for C2: trigger resolved, token untouched, then a later manual
cancel. -/
theorem trigger_before_cancel_graceful_witness :
    shutdownStep ⟨true, false, false, false⟩ ShutdownEv.listenerCancelBranch =
      ⟨true, false, false, false⟩ ∧
    (shutdownStep ⟨true, false, false, false⟩
      ShutdownEv.listenerTriggerBranch).graceful = true ∧
    (shutdownStep ⟨true, false, false, false⟩
      ShutdownEv.listenerTriggerBranch).cancelled = true ∧
    (shutdownRun (shutdownStep ⟨true, false, false, false⟩
      ShutdownEv.listenerTriggerBranch) [ShutdownEv.manualCancel]).graceful =
      true :=
  trigger_before_cancel_graceful ⟨true, false, false, false⟩
    [ShutdownEv.manualCancel] rfl rfl rfl

/-- Claim C3: along any event sequence from the initial coordinator state in
which the external trigger never resolves but some holder calls `cancel()`,
the token ends up cancelled and the graceful flag ends up `false`. -/
theorem manual_cancel_not_graceful (tr : List ShutdownEv)
    (hno : ShutdownEv.resolveTrigger ∉ tr)
    (hmc : ShutdownEv.manualCancel ∈ tr) :
    (shutdownRun initShutdown tr).cancelled = true ∧
    (shutdownRun initShutdown tr).graceful = false :=
  ⟨shutdownRun_cancel_mem tr initShutdown hmc,
   (shutdownRun_no_trigger tr initShutdown hno rfl rfl).2⟩

/-- Witness for C3: the single-event sequence that just cancels. -/
theorem manual_cancel_not_graceful_witness :
    (shutdownRun initShutdown [ShutdownEv.manualCancel]).cancelled = true ∧
    (shutdownRun initShutdown [ShutdownEv.manualCancel]).graceful = false :=
  manual_cancel_not_graceful [ShutdownEv.manualCancel] (by decide) (by decide)

/-- Claim C4: `cancel()` on an already-cancelled token is a no-op on the
whole coordinator state (the token stays cancelled and the graceful flag is
unchanged), and a graceful flag that is `true` stays `true` after every
event and every event sequence. -/
theorem cancel_idempotent_graceful_stable (s : ShutdownState) (e : ShutdownEv)
    (tr : List ShutdownEv) (hc : s.cancelled = true) :
    shutdownStep s ShutdownEv.manualCancel = s ∧
    (s.graceful = true → (shutdownStep s e).graceful = true) ∧
    (s.graceful = true → (shutdownRun s tr).graceful = true) := by
  refine ⟨?_, shutdownStep_graceful_mono s e, shutdownRun_graceful_mono tr s⟩
  cases s
  simp_all [shutdownStep]

/-- Witness for C4: a cancelled, graceful state. -/
theorem cancel_idempotent_graceful_stable_witness :
    shutdownStep ⟨true, true, true, true⟩ ShutdownEv.manualCancel =
      ⟨true, true, true, true⟩ ∧
    (shutdownStep ⟨true, true, true, true⟩ ShutdownEv.manualCancel).graceful =
      true ∧
    (shutdownRun ⟨true, true, true, true⟩ [ShutdownEv.manualCancel]).graceful =
      true := by
  have h0 := cancel_idempotent_graceful_stable ⟨true, true, true, true⟩
    ShutdownEv.manualCancel [ShutdownEv.manualCancel] rfl
  exact ⟨h0.1, h0.2.1 rfl, h0.2.2 rfl⟩

end NodesCommon
